import Mathlib

/-!
Verification development for the Widevine license-acquisition client of
shaka-packager.  The repository sources contain the unit test
`packager/media/base/widevine_key_source_unittest.cc`; the implementation of
`WidevineKeySource` itself is not among the sources, so the operational
definitions below are modelled from the specification (sections 3 to 7) and
pinned against the request/response formats and mock data that appear
literally in the unit test.  JSON and base64 are treated as the utility
boundary: requests are built as exact byte strings (with a concrete base64
encoder), while server responses are consumed at the structured level that
the JSON decoding utility would produce.
-/

namespace WidevineModel

/-- Track classification (spec section 3): SD, HD, AUDIO, UNKNOWN. -/
inductive TrackType where
  | SD
  | HD
  | AUDIO
  | UNKNOWN
  deriving DecidableEq, Repr

/-- `KeySource::GetTrackTypeFromString`: case-sensitive match; unmatched
strings map to `UNKNOWN` (exercised by the `GetTrackTypeFromString` test). -/
def GetTrackTypeFromString (s : String) : TrackType :=
  if s = "SD" then TrackType.SD
  else if s = "HD" then TrackType.HD
  else if s = "AUDIO" then TrackType.AUDIO
  else TrackType.UNKNOWN

/-- Error taxonomy of spec section 7 plus the transport statuses used by the
test (`Status::UNKNOWN`, `error::TIME_OUT`). -/
inductive ErrorCode where
  | OK
  | UNKNOWN
  | INTERNAL_ERROR
  | SERVER_ERROR
  | TIME_OUT
  | INVALID_ARGUMENT
  | NOT_FOUND
  deriving DecidableEq, Repr

/-- A typed failure object: error code plus message, compared for equality on
both fields like `media::Status` in the test assertions. -/
structure Status where
  error_code : ErrorCode
  message : String
  deriving DecidableEq, Repr

def Status.OK : Status := ⟨ErrorCode.OK, ""⟩

/-- Byte sequences are lists of naturals (each < 256 for real data). -/
abbrev Bytes := List Nat

/-- Bytes of an ASCII string (all string data in the tests is ASCII). -/
def strBytes (s : String) : Bytes := s.data.map Char.toNat

def base64Alphabet : List Char :=
  "ABCDEFGHIJKLMNOPQRSTUVWXYZabcdefghijklmnopqrstuvwxyz0123456789+/".data

def b64c (n : Nat) : Char := base64Alphabet.getD n 'A'

/-- Standard base64 with padding (`base::Base64Encode` utility). -/
def base64Encode : Bytes → String
  | [] => ""
  | [a] =>
      String.mk [b64c (a / 4 % 64), b64c (a % 4 * 16), '=', '=']
  | [a, b] =>
      String.mk [b64c (a / 4 % 64), b64c (a % 4 * 16 + b / 16), b64c (b % 16 * 4), '=']
  | a :: b :: c :: rest =>
      String.mk [b64c (a / 4 % 64), b64c (a % 4 * 16 + b / 16),
                 b64c (b % 16 * 4 + c / 64), b64c (c % 64)] ++ base64Encode rest

def base64EncodeStr (s : String) : String := base64Encode (strBytes s)

/-- Widevine DRM system id; the bytes appear literally inside
`kRequestPsshBox` in the unit test. -/
def kWidevineSystemId : Bytes :=
  [0xed, 0xef, 0x8b, 0xa9, 0x79, 0xd6, 0x4a, 0xce,
   0xa3, 0xc8, 0x27, 0xdc, 0xd5, 0x1d, 0x21, 0xed]

/-- Modelled from the spec: `kCommonSystemId` lives in `fixed_key_source.h`,
which is not among the sources; the test only compares against it, so the
exact bytes are immaterial to every claim. -/
def kCommonSystemId : Bytes :=
  [0x10, 0x77, 0xef, 0xec, 0xc0, 0xb2, 0x4d, 0x02,
   0xac, 0xe3, 0x3c, 0x1e, 0x52, 0xe2, 0xfb, 0x4b]

/-- One `key_system_info` entry (spec section 3 data model). -/
structure KeySystemInfo where
  system_id : Bytes
  pssh_data : String
  key_ids : List String
  deriving DecidableEq, Repr

/-- Spec section 3: `EncryptionKey` record handed to callers. -/
structure EncryptionKey where
  key : String
  key_id : String
  key_system_info : List KeySystemInfo
  deriving DecidableEq, Repr

/-- One track entry of the inner license JSON, at the structured level the
JSON utility produces (spec section 6 response grammar): legacy tracks carry
only `type` and `key`, cenc tracks add `key_id` and `pssh`, rotation tracks
add `crypto_period_index`. -/
structure LicenseTrack where
  type : String
  key : String
  key_id : Option String := none
  pssh_data : Option String := none
  crypto_period_index : Option Nat := none
  deriving DecidableEq, Repr

/-- The decoded inner license payload: a status string and the track list. -/
structure LicenseResponse where
  status : String
  tracks : List LicenseTrack
  deriving DecidableEq, Repr

/-- The sample set of transient license status strings; the test names
`kLicenseStatusTransientError = "INTERNAL_ERROR"` as the retryable one. -/
def kLicenseStatusTransientErrors : List String := ["INTERNAL_ERROR"]

def IsTransientError (s : String) : Bool := kLicenseStatusTransientErrors.contains s

/-- Tracks whose `type` string is recognized; unrecognized type strings are
dropped, not errors (spec section 4.5). -/
def usableTracks (r : LicenseResponse) : List LicenseTrack :=
  r.tracks.filter (fun t => decide (GetTrackTypeFromString t.type ≠ TrackType.UNKNOWN))

/-- A cenc-mode track must carry `key_id` and `pssh` data. -/
def cencTrackWellFormed (t : LicenseTrack) : Bool :=
  t.key_id.isSome && t.pssh_data.isSome

/-- Union of the key ids of all (usable) tracks, deduplicated and unordered
(spec section 4.5: the std::set-backed aggregate). -/
def aggregateKeyIds (ts : List LicenseTrack) : List String :=
  (ts.filterMap (fun t => t.key_id)).dedup

/-- A decoded per-track key together with its classification. -/
structure ExtractedKey where
  track_type : TrackType
  crypto_period_index : Option Nat
  encryption_key : EncryptionKey
  deriving DecidableEq, Repr

/-- Cenc-mode key: the per-track Widevine entry carries the track's own
pssh data and own key id; in common-system mode one synthesized aggregate
entry follows it (spec section 4.5). -/
def mkCencKey (addCommon : Bool) (allIds : List String) (t : LicenseTrack) : ExtractedKey :=
  { track_type := GetTrackTypeFromString t.type
    crypto_period_index := t.crypto_period_index
    encryption_key :=
      { key := t.key
        key_id := t.key_id.getD ""
        key_system_info :=
          { system_id := kWidevineSystemId
            pssh_data := t.pssh_data.getD ""
            key_ids := [t.key_id.getD ""] } ::
          (if addCommon then
            [{ system_id := kCommonSystemId, pssh_data := "", key_ids := allIds }]
          else []) } }

/-- Classic-mode key: `key` is populated, `key_id` and `key_system_info`
stay empty (spec section 8). -/
def mkClassicKey (t : LicenseTrack) : ExtractedKey :=
  { track_type := GetTrackTypeFromString t.type
    crypto_period_index := t.crypto_period_index
    encryption_key := { key := t.key, key_id := "", key_system_info := [] } }

/-- Modelled from the spec: key extraction of `WidevineKeySource` (the
implementation is not among the sources).  Spec section 4.5: on an OK status,
decode each recognized track; in classic mode only `key` is taken; in cenc
mode a track missing `key_id`/`pssh` makes extraction fail (the caller
surfaces `SERVER_ERROR`, as the `LicenseStatusCencNotOK` test demands). -/
def ExtractEncryptionKeys (addCommon classic : Bool) (r : LicenseResponse) :
    Option (List ExtractedKey) :=
  let ts := usableTracks r
  if classic then some (ts.map mkClassicKey)
  else if ts.all cencTrackWellFormed then
    some (ts.map (mkCencKey addCommon (aggregateKeyIds ts)))
  else none

/-! ### Request building (spec section 4.1, wire formats from the test) -/

def kTracksJson : String :=
  "\"tracks\":[\x7b\"type\":\"SD\"\x7d,\x7b\"type\":\"HD\"\x7d,\x7b\"type\":\"AUDIO\"\x7d]"

/-- Modelled from the spec: content-id mode request body, fields in the
order of `kExpectedRequestMessageFormat`. -/
def ContentIdRequest (cid : Bytes) (policy : String) : String :=
  "\x7b\"content_id\":\"" ++ base64Encode cid ++ "\",\"drm_types\":[\"WIDEVINE\"],\"policy\":\""
    ++ policy ++ "\"," ++ kTracksJson ++ "\x7d"

/-- Modelled from the spec: content-id mode extended with rotation
parameters, fields in the order of `kCryptoPeriodRequestMessageFormat`.
`firstIdx` is the wire value of `first_crypto_period_index` (already one
less than the nominal window start, spec section 4.1). -/
def CryptoPeriodRequest (cid : Bytes) (policy : String) (firstIdx count : Nat) : String :=
  "\x7b\"content_id\":\"" ++ base64Encode cid ++ "\",\"crypto_period_count\":" ++ toString count
    ++ ",\"drm_types\":[\"WIDEVINE\"],\"first_crypto_period_index\":" ++ toString firstIdx
    ++ ",\"policy\":\"" ++ policy ++ "\"," ++ kTracksJson ++ "\x7d"

/-- Modelled from the spec: pssh-data mode request body, fields in the order
of `kExpectedRequestMessageWithPsshFormat`. -/
def PsshRequest (psshData : Bytes) : String :=
  "\x7b\"drm_types\":[\"WIDEVINE\"],\"pssh_data\":\"" ++ base64Encode psshData ++ "\","
    ++ kTracksJson ++ "\x7d"

/-- Modelled from the spec: classic asset-id mode request body, the asset id
emitted as an unsigned 32-bit decimal literal
(`kExpectedRequestMessageWithAssetIdFormat` with `%u`). -/
def AssetIdRequest (assetId : Nat) : String :=
  "\x7b\"asset_id\":" ++ toString (assetId % 2 ^ 32) ++ ",\"drm_types\":[\"WIDEVINE\"],"
    ++ kTracksJson ++ "\x7d"

/-- Modelled from the spec: strip the container framing of a full pssh box
down to its inner payload (spec section 4.1).  Box layout per the source test
data `kRequestPsshBox`: 4-byte size, "pssh" fourcc, 4-byte version/flags,
16-byte system id, 4-byte data size, data. -/
def ParsePsshBox (box : Bytes) : Option Bytes :=
  if box.length ≥ 32 then
    let total := box.getD 0 0 * 2 ^ 24 + box.getD 1 0 * 2 ^ 16 + box.getD 2 0 * 2 ^ 8
      + box.getD 3 0
    let fourcc := [box.getD 4 0, box.getD 5 0, box.getD 6 0, box.getD 7 0]
    let dataSize := box.getD 28 0 * 2 ^ 24 + box.getD 29 0 * 2 ^ 16 + box.getD 30 0 * 2 ^ 8
      + box.getD 31 0
    if total = box.length ∧ fourcc = strBytes "pssh" ∧ dataSize = box.length - 32 then
      some (box.drop 32)
    else none
  else none

/-- Lexicographic byte-sequence order used for the sorted key-id set. -/
def bytesLe : Bytes → Bytes → Bool
  | [], _ => true
  | _ :: _, [] => false
  | a :: as, b :: bs => if a < b then true else if b < a then false else bytesLe as bs

/-- Insertion sort by `bytesLe`. -/
def insertSorted (x : Bytes) : List Bytes → List Bytes
  | [] => [x]
  | y :: ys => if bytesLe x y then x :: y :: ys else y :: insertSorted x ys

def sortBytes : List Bytes → List Bytes
  | [] => []
  | x :: xs => insertSorted x (sortBytes xs)

/-- Modelled from the spec: synthesize a minimal inner pssh payload from the
sorted unique key-id set (spec section 4.1); each id becomes a
length-delimited protobuf field 2 entry, matching
`kRequestPsshDataFromKeyIds` in the test. -/
def PsshDataFromKeyIds (ids : List Bytes) : Bytes :=
  (sortBytes ids.dedup).flatMap (fun k => 0x12 :: k.length % 256 :: k)

/-! ### Signer, fetcher and the retrying key source (spec sections 4.2-4.7) -/

/-- The pluggable Signer capability (spec section 4.2): a name and a
signature generator that may fail. -/
structure Signer where
  name : String
  generate : String → Option String

/-- One scripted outcome of the injected Fetcher capability: a non-OK
transport status, a decodable response (already at the structured level the
JSON utility yields), or an undecodable payload. -/
inductive FetchOutcome where
  | transport (s : Status)
  | response (r : LicenseResponse)
  | malformed
  deriving DecidableEq, Repr

/-- Signed POST body, `kExpectedSignedMessageFormat` of the test and spec
section 6. -/
def SignedMessage (request signature signerName : String) : String :=
  "\x7b\"request\":\"" ++ base64EncodeStr request ++ "\",\"signature\":\""
    ++ base64EncodeStr signature ++ "\",\"signer\":\"" ++ signerName ++ "\"\x7d"

/-- Modelled from the spec (section 6): with a Signer the body is the signed
envelope over the exact request bytes; with no Signer the raw request is
sent unsigned.  A signing failure yields `none`. -/
def BuildPostBody (signer : Option Signer) (message : String) : Option String :=
  match signer with
  | none => some message
  | some sg => (sg.generate message).map (fun sig => SignedMessage message sig sg.name)

/-- Modelled from the spec: the facade state of `WidevineKeySource`
(section 4.7), including the injected fetcher script and observation logs
standing for the mock expectations of the test.  `request_log` records every
body the Fetcher observed (one entry per attempt); `message_log` records the
inner request message of every fetch that was actually issued. -/
structure WidevineKeySource where
  server_url : String
  add_common_pssh : Bool
  signer : Option Signer
  script : List FetchOutcome
  request_log : List String
  message_log : List String
  fetched : Bool
  content_id : Bytes
  policy : String
  keys : List (TrackType × EncryptionKey)
  rotation_started : Bool
  next_index : Nat
  floor : Nat
  rotation_keys : List (Nat × TrackType × EncryptionKey)

/-- Retry cap (spec section 4.4: bounded number of attempts, fixed cap 5). -/
def kNumTransientErrorRetries : Nat := 5

/-- Rotation window size; the test drives the source with
`kCryptoPeriodCount = 10`, the default of the implementation. -/
def kDefaultCryptoPeriodCount : Nat := 10

/-- Result of one fetch-with-retries exchange. -/
structure FetchRes where
  status : Status
  keys : Option (List ExtractedKey)
  script : List FetchOutcome
  request_log : List String

/-- Modelled from the spec: the retry state machine of section 4.4.
Transport `TIME_OUT` and a decoded transient license status are retried up
to the cap; any other transport status surfaces verbatim; a decoded fatal
status surfaces as `SERVER_ERROR`; a malformed payload surfaces as
`INTERNAL_ERROR` and is not retried. -/
def FetchWithRetry (addCommon classic : Bool) (body : String) :
    Nat → List FetchOutcome → List String → FetchRes
  | 0, script, log => ⟨⟨ErrorCode.SERVER_ERROR, "Retries exhausted"⟩, none, script, log⟩
  | Nat.succ attempts, script, log =>
    match script with
    | [] => ⟨⟨ErrorCode.UNKNOWN, "no response scripted"⟩, none, [], log ++ [body]⟩
    | o :: rest =>
      match o with
      | FetchOutcome.transport s =>
          if s.error_code = ErrorCode.TIME_OUT ∧ attempts ≠ 0 then
            FetchWithRetry addCommon classic body attempts rest (log ++ [body])
          else ⟨s, none, rest, log ++ [body]⟩
      | FetchOutcome.malformed =>
          ⟨⟨ErrorCode.INTERNAL_ERROR, "Failed to parse response"⟩, none, rest, log ++ [body]⟩
      | FetchOutcome.response r =>
          if r.status = "OK" then
            match ExtractEncryptionKeys addCommon classic r with
            | some ks => ⟨Status.OK, some ks, rest, log ++ [body]⟩
            | none => ⟨⟨ErrorCode.SERVER_ERROR, "Error licensing"⟩, none, rest, log ++ [body]⟩
          else if IsTransientError r.status = true ∧ attempts ≠ 0 then
            FetchWithRetry addCommon classic body attempts rest (log ++ [body])
          else ⟨⟨ErrorCode.SERVER_ERROR, "Error licensing"⟩, none, rest, log ++ [body]⟩

/-- Result of one facade-level fetch: status, extracted keys, new state. -/
structure OpRes where
  status : Status
  keys : Option (List ExtractedKey)
  src : WidevineKeySource

/-- Modelled from the spec: one signed fetch exchange.  The request is
signed first; a signing failure is fatal and non-retryable, surfacing
`INTERNAL_ERROR` with no fetch attempted (spec section 4.2). -/
def DoFetch (s : WidevineKeySource) (message : String) (classic : Bool) : OpRes :=
  match BuildPostBody s.signer message with
  | none => ⟨⟨ErrorCode.INTERNAL_ERROR, "Signature generation failed."⟩, none, s⟩
  | some body =>
      let r := FetchWithRetry s.add_common_pssh classic body kNumTransientErrorRetries
        s.script s.request_log
      ⟨r.status, r.keys,
        { s with script := r.script, request_log := r.request_log,
                 message_log := s.message_log ++ [message] }⟩

/-- Modelled from the spec: `FetchKeys(content_id, policy)` (section 4.7):
a non-rotation fetch; on success the batch cache is populated and the
content id and policy are remembered for later rotation requests; any
failure leaves the cache unchanged. -/
def FetchKeysContentIdPolicy (s : WidevineKeySource) (cid : Bytes) (policy : String) :
    Status × WidevineKeySource :=
  let r := DoFetch s (ContentIdRequest cid policy) false
  match r.keys with
  | some ks =>
      (r.status,
        { r.src with fetched := true, content_id := cid, policy := policy,
                     keys := ks.map (fun e => (e.track_type, e.encryption_key)) })
  | none => (r.status, r.src)

/-- Modelled from the spec: `FetchKeys(pssh_box)` (section 4.7); a box that
fails structural validation is `INVALID_ARGUMENT` before anything else. -/
def FetchKeysPsshBox (s : WidevineKeySource) (box : Bytes) :
    Status × WidevineKeySource :=
  match ParsePsshBox box with
  | none => (⟨ErrorCode.INVALID_ARGUMENT, "Invalid pssh box"⟩, s)
  | some data =>
      let r := DoFetch s (PsshRequest data) false
      match r.keys with
      | some ks =>
          (r.status,
            { r.src with fetched := true,
                         keys := ks.map (fun e => (e.track_type, e.encryption_key)) })
      | none => (r.status, r.src)

/-- Modelled from the spec: `FetchKeys(key_ids)` (section 4.7); an empty key
id set is `INVALID_ARGUMENT` before anything else. -/
def FetchKeysKeyIds (s : WidevineKeySource) (ids : List Bytes) :
    Status × WidevineKeySource :=
  if ids.isEmpty then (⟨ErrorCode.INVALID_ARGUMENT, "No key ids provided"⟩, s)
  else
    let r := DoFetch s (PsshRequest (PsshDataFromKeyIds ids)) false
    match r.keys with
    | some ks =>
        (r.status,
          { r.src with fetched := true,
                       keys := ks.map (fun e => (e.track_type, e.encryption_key)) })
    | none => (r.status, r.src)

/-- Modelled from the spec: `FetchKeys(asset_id)`, the classic mode
(section 4.7). -/
def FetchKeysClassic (s : WidevineKeySource) (assetId : Nat) :
    Status × WidevineKeySource :=
  let r := DoFetch s (AssetIdRequest assetId) true
  match r.keys with
  | some ks =>
      (r.status,
        { r.src with fetched := true,
                     keys := ks.map (fun e => (e.track_type, e.encryption_key)) })
  | none => (r.status, r.src)

/-- Modelled from the spec: `GetKey(track_type)` (section 4.6), served from
the single fetched batch; `INVALID_ARGUMENT` before a successful FetchKeys,
`NOT_FOUND` on a miss. -/
def GetKey (s : WidevineKeySource) (t : TrackType) : Status × Option EncryptionKey :=
  if s.fetched = false then (⟨ErrorCode.INVALID_ARGUMENT, "Keys not fetched"⟩, none)
  else
    match s.keys.find? (fun p => p.1 == t) with
    | some p => (Status.OK, some p.2)
    | none => (⟨ErrorCode.NOT_FOUND, "Key not found"⟩, none)

/-- Modelled from the spec: fetch one rotation window (section 4.6).  The
request carries `first_crypto_period_index = s.next_index` and the fixed
window size; on success the returned keys are inserted, the high-water mark
advances by one window, the floor advances to one window below the request
index (never decreasing), and entries below the new floor are evicted. -/
def FetchCryptoPeriodWindow (s : WidevineKeySource) : Status × WidevineKeySource :=
  let a := s.next_index
  let r := DoFetch s (CryptoPeriodRequest s.content_id s.policy a kDefaultCryptoPeriodCount) false
  match r.keys with
  | some ks =>
      let inserted := ks.filterMap (fun e =>
        match e.crypto_period_index with
        | some i => some (i, e.track_type, e.encryption_key)
        | none => none)
      let floor1 := max s.floor (a - kDefaultCryptoPeriodCount)
      (Status.OK,
        { r.src with
            rotation_started := true,
            next_index := a + kDefaultCryptoPeriodCount,
            floor := floor1,
            rotation_keys := (s.rotation_keys ++ inserted).filter (fun e => floor1 ≤ e.1) })
  | none => (r.status, r.src)

/-- Iterate window fetches; a failure stops and surfaces immediately. -/
def FetchWindows : Nat → WidevineKeySource → Status × WidevineKeySource
  | 0, s => (Status.OK, s)
  | Nat.succ n, s =>
      let r := FetchCryptoPeriodWindow s
      if r.1.error_code = ErrorCode.OK then FetchWindows n r.2 else r

/-- Number of consecutive window fetches needed so that index `i` falls
below the high-water mark (0 when already covered; on the very first
rotation fetch a single window starting at the requested index minus one
always suffices). -/
def windowsNeeded (s : WidevineKeySource) (i : Nat) : Nat :=
  if s.rotation_started then
    if i < s.next_index then 0
    else (i - s.next_index) / kDefaultCryptoPeriodCount + 1
  else 1

/-- Modelled from the spec: `GetCryptoPeriodKey(index, track_type)`
(section 4.6).  Fails `INVALID_ARGUMENT` when keys were never fetched or the
index lies below the floor (evicted); otherwise lazily fetches missing
windows — the first window starts at the caller's requested index minus one
(the protocol off-by-one), each further window starts right after the
previous window's last index — then serves a point lookup, `NOT_FOUND` on a
miss inside the prefetched range. -/
def GetCryptoPeriodKey (s : WidevineKeySource) (i : Nat) (t : TrackType) :
    Status × WidevineKeySource × Option EncryptionKey :=
  if s.fetched = false then (⟨ErrorCode.INVALID_ARGUMENT, "Keys not fetched"⟩, s, none)
  else if i < s.floor then (⟨ErrorCode.INVALID_ARGUMENT, "Crypto period evicted"⟩, s, none)
  else
    let s0 := if s.rotation_started then s else { s with next_index := i - 1 }
    let r := FetchWindows (windowsNeeded s0 i) s0
    if r.1.error_code = ErrorCode.OK then
      match r.2.rotation_keys.find? (fun e => e.1 == i && e.2.1 == t) with
      | some e => (Status.OK, r.2, some e.2.2)
      | none => (⟨ErrorCode.NOT_FOUND, "Key not found"⟩, r.2, none)
    else (r.1, r.2, none)

/-- The public operations of the facade, for stating whole-lifecycle
invariants (spec sections 4.7 and 5). -/
inductive Op where
  | fetchContentId (cid : Bytes) (policy : String)
  | fetchPsshBox (box : Bytes)
  | fetchKeyIds (ids : List Bytes)
  | fetchClassic (assetId : Nat)
  | getKey (t : TrackType)
  | getCryptoPeriodKey (i : Nat) (t : TrackType)

def applyOp (s : WidevineKeySource) : Op → WidevineKeySource
  | Op.fetchContentId cid p => (FetchKeysContentIdPolicy s cid p).2
  | Op.fetchPsshBox b => (FetchKeysPsshBox s b).2
  | Op.fetchKeyIds ids => (FetchKeysKeyIds s ids).2
  | Op.fetchClassic a => (FetchKeysClassic s a).2
  | Op.getKey _ => s
  | Op.getCryptoPeriodKey i t => (GetCryptoPeriodKey s i t).2.1

def applyOps (s : WidevineKeySource) (ops : List Op) : WidevineKeySource :=
  ops.foldl applyOp s

/-! ### The concrete mock data of the unit test -/

def kContentId : Bytes := strBytes "ContentFoo"

def kPolicy : String := "PolicyFoo"

def kSignerName : String := "SignerFoo"

def kMockSignature : String := "MockSignature"

def kServerUrl : String := "http://www.foo.com/getcontentkey"

def kRequestPsshBox : Bytes :=
  [0, 0, 0, 41, 0x70, 0x73, 0x73, 0x68, 0, 0, 0, 0] ++ kWidevineSystemId
    ++ [0, 0, 0, 0x09] ++ strBytes "PSSH data"

def kRequestKeyId : Bytes := [0x00, 0x01, 0x02, 0x03, 0x04, 0x05]

/-- 32-bit asset id with the leading bit set (`kClassicAssetId`). -/
def kClassicAssetId : Nat := 0x80038cd9

/-- `GetMockKeyId`: "MockKeyId" + type, resized to 16 characters with `~`. -/
def GetMockKeyId (t : String) : String :=
  let s := "MockKeyId" ++ t
  s ++ String.mk (List.replicate (16 - s.length) '~')

def GetMockKey (t : String) : String := "MockKey" ++ t

def GetMockPsshData (t : String) : String := "MockPsshData" ++ t

/-- `GetMockKey(track_type, index)` of the rotation test. -/
def GetMockRotationKey (t : String) (i : Nat) : String :=
  "MockKey" ++ t ++ "@" ++ toString i

def kMockTrackTypes : List String := ["SD", "HD", "AUDIO"]

/-- One track of `GenerateMockLicenseResponse`, at the structured level. -/
def MockCencTrack (t : String) : LicenseTrack :=
  { type := t, key := GetMockKey t, key_id := some (GetMockKeyId t),
    pssh_data := some (GetMockPsshData t), crypto_period_index := none }

/-- `GenerateMockLicenseResponse`: an OK status with SD/HD/AUDIO tracks. -/
def MockLicenseResponse : LicenseResponse :=
  { status := "OK", tracks := kMockTrackTypes.map MockCencTrack }

/-- One track of `GenerateMockClassicLicenseResponse` (type and key only). -/
def MockClassicTrack (t : String) : LicenseTrack :=
  { type := t, key := GetMockKey t, key_id := none,
    pssh_data := none, crypto_period_index := none }

/-- `GenerateMockClassicLicenseResponse`: OK status, legacy-format tracks. -/
def MockClassicLicenseResponse : LicenseResponse :=
  { status := "OK", tracks := kMockTrackTypes.map MockClassicTrack }

/-- One track of `GenerateMockKeyRotationLicenseResponse` (empty pssh data,
explicit crypto period index). -/
def MockRotationTrack (t : String) (i : Nat) : LicenseTrack :=
  { type := t, key := GetMockRotationKey t i, key_id := some (GetMockKeyId t),
    pssh_data := some "", crypto_period_index := some i }

/-- `GenerateMockKeyRotationLicenseResponse(first, count)`: OK status with
SD/HD/AUDIO keys for every index of the window. -/
def MockRotationLicenseResponse (first count : Nat) : LicenseResponse :=
  { status := "OK",
    tracks := ((List.range count).map (fun k => first + k)).flatMap
      (fun i => kMockTrackTypes.map (fun t => MockRotationTrack t i)) }

/-- A signer that always succeeds with `kMockSignature`. -/
def MockSigner : Signer := ⟨kSignerName, fun _ => some kMockSignature⟩

/-- A signer whose `GenerateSignature` always fails. -/
def FailSigner : Signer := ⟨kSignerName, fun _ => none⟩

/-- A fresh key source, as built by `CreateWidevineKeySource` with the
scripted mock fetcher and an optional signer. -/
def InitKeySource (addCommon : Bool) (signer : Option Signer)
    (script : List FetchOutcome) : WidevineKeySource :=
  { server_url := kServerUrl, add_common_pssh := addCommon, signer := signer,
    script := script, request_log := [], message_log := [], fetched := false,
    content_id := [], policy := "", keys := [], rotation_started := false,
    next_index := 0, floor := 0, rotation_keys := [] }

/-! ### Expected wire bytes, written out as in the test expectations -/

/-- `kExpectedRequestMessageFormat` instantiated with
`Base64Encode("ContentFoo")` and "PolicyFoo", as the `HttpFetchFailure`
expectation does. -/
def ExpectedContentMessage : String :=
  "\x7b\"content_id\":\"Q29udGVudEZvbw==\",\"drm_types\":[\"WIDEVINE\"],\"policy\":\"PolicyFoo\",\"tracks\":[\x7b\"type\":\"SD\"\x7d,\x7b\"type\":\"HD\"\x7d,\x7b\"type\":\"AUDIO\"\x7d]\x7d"

/-- `kExpectedRequestMessageWithAssetIdFormat` instantiated with
`kClassicAssetId = 0x80038cd9` printed via `%u` (2147716313). -/
def ExpectedAssetIdMessage : String :=
  "\x7b\"asset_id\":2147716313,\"drm_types\":[\"WIDEVINE\"],\"tracks\":[\x7b\"type\":\"SD\"\x7d,\x7b\"type\":\"HD\"\x7d,\x7b\"type\":\"AUDIO\"\x7d]\x7d"

/-- `kExpectedRequestMessageWithPsshFormat` instantiated with
`Base64Encode("PSSH data")`. -/
def ExpectedPsshBoxMessage : String :=
  "\x7b\"drm_types\":[\"WIDEVINE\"],\"pssh_data\":\"UFNTSCBkYXRh\",\"tracks\":[\x7b\"type\":\"SD\"\x7d,\x7b\"type\":\"HD\"\x7d,\x7b\"type\":\"AUDIO\"\x7d]\x7d"

/-- `kExpectedRequestMessageWithPsshFormat` instantiated with
`Base64Encode(kRequestPsshDataFromKeyIds)`. -/
def ExpectedKeyIdsMessage : String :=
  "\x7b\"drm_types\":[\"WIDEVINE\"],\"pssh_data\":\"EgYAAQIDBAU=\",\"tracks\":[\x7b\"type\":\"SD\"\x7d,\x7b\"type\":\"HD\"\x7d,\x7b\"type\":\"AUDIO\"\x7d]\x7d"

/-- `kCryptoPeriodRequestMessageFormat` instantiated with
`Base64Encode("ContentFoo")`, count 10 and the given wire index, as built in
the `KeyRotationTest` expectation loop. -/
def ExpectedCryptoPeriodMessage (firstIdx : Nat) : String :=
  "\x7b\"content_id\":\"Q29udGVudEZvbw==\",\"crypto_period_count\":10,\"drm_types\":[\"WIDEVINE\"],\"first_crypto_period_index\":"
    ++ toString firstIdx
    ++ ",\"policy\":\"PolicyFoo\",\"tracks\":[\x7b\"type\":\"SD\"\x7d,\x7b\"type\":\"HD\"\x7d,\x7b\"type\":\"AUDIO\"\x7d]\x7d"

/-- The signed POST body the `HttpFetchFailure` test expects, computed as
there: `kExpectedSignedMessageFormat` over the base64 of the expected
request message and of the mock signature. -/
def ExpectedSignedPostBody : String :=
  "\x7b\"request\":\"" ++ base64EncodeStr ExpectedContentMessage ++ "\",\"signature\":\""
    ++ base64EncodeStr kMockSignature ++ "\",\"signer\":\"SignerFoo\"\x7d"

/-! ### Concrete scenario runs -/

/-- Fetcher script of `KeyRotationTest`: the initial non-rotation response,
then one rotation window per expected `first_crypto_period_index`. -/
def RotationScript : List FetchOutcome :=
  [FetchOutcome.response MockLicenseResponse,
   FetchOutcome.response (MockRotationLicenseResponse 7 10),
   FetchOutcome.response (MockRotationLicenseResponse 17 10),
   FetchOutcome.response (MockRotationLicenseResponse 27 10),
   FetchOutcome.response (MockRotationLicenseResponse 37 10)]

/-- The index sequence of `kCryptoPeriodIndexes`, each for SD, HD, AUDIO. -/
def RotationLookups : List (Nat × TrackType) :=
  [8, 17, 37, 38, 36, 39].flatMap
    (fun i => [(i, TrackType.SD), (i, TrackType.HD), (i, TrackType.AUDIO)])

/-- Run a sequence of `GetCryptoPeriodKey` lookups, collecting results. -/
def RunLookups : WidevineKeySource → List (Nat × TrackType) →
    WidevineKeySource × List (Status × Option EncryptionKey)
  | s, [] => (s, [])
  | s, (i, t) :: rest =>
      match GetCryptoPeriodKey s i t with
      | (st, s1, k) =>
          let r := RunLookups s1 rest
          (r.1, (st, k) :: r.2)

def RotationState0 : WidevineKeySource :=
  InitKeySource false (some MockSigner) RotationScript

def RotationAfterFetch : Status × WidevineKeySource :=
  FetchKeysContentIdPolicy RotationState0 kContentId kPolicy

def RotationRun : WidevineKeySource × List (Status × Option EncryptionKey) :=
  RunLookups RotationAfterFetch.2 RotationLookups

def RotationFinal : WidevineKeySource := RotationRun.1

/-- Script and run of `RetryOnHttpTimeout`. -/
def TimeoutScript : List FetchOutcome :=
  [FetchOutcome.transport ⟨ErrorCode.TIME_OUT, ""⟩,
   FetchOutcome.response MockLicenseResponse]

def TimeoutRun : Status × WidevineKeySource :=
  FetchKeysContentIdPolicy (InitKeySource false none TimeoutScript) kContentId kPolicy

/-- Script and run of `RetryOnTransientError`. -/
def TransientScript : List FetchOutcome :=
  [FetchOutcome.response ⟨"INTERNAL_ERROR", []⟩,
   FetchOutcome.response MockLicenseResponse]

def TransientRun : Status × WidevineKeySource :=
  FetchKeysContentIdPolicy (InitKeySource false none TransientScript) kContentId kPolicy

/-- Script and run of `NoRetryOnUnknownError`. -/
def UnknownErrorScript : List FetchOutcome :=
  [FetchOutcome.response ⟨"UNKNOWN_ERROR", []⟩,
   FetchOutcome.response MockLicenseResponse]

def UnknownErrorRun : Status × WidevineKeySource :=
  FetchKeysContentIdPolicy (InitKeySource false none UnknownErrorScript) kContentId kPolicy

/-- Run of `HttpFetchFailure` (signed request, transport `UNKNOWN`). -/
def HttpFailRun : Status × WidevineKeySource :=
  FetchKeysContentIdPolicy
    (InitKeySource false (some MockSigner) [FetchOutcome.transport ⟨ErrorCode.UNKNOWN, ""⟩])
    kContentId kPolicy

/-- The same exchange without any configured signer. -/
def UnsignedFailRun : Status × WidevineKeySource :=
  FetchKeysContentIdPolicy
    (InitKeySource false none [FetchOutcome.transport ⟨ErrorCode.UNKNOWN, ""⟩])
    kContentId kPolicy

/-- Run of `LicenseStatusCencNotOK`: classic-format response in cenc mode. -/
def CencNotOKRun : Status × WidevineKeySource :=
  FetchKeysContentIdPolicy
    (InitKeySource false none [FetchOutcome.response MockClassicLicenseResponse])
    kContentId kPolicy

/-- The per-track key `VerifyKeys` expects with `add_common_pssh = false`. -/
def ExpectedCencKeyNoCommon (t : String) : EncryptionKey :=
  { key := GetMockKey t, key_id := GetMockKeyId t,
    key_system_info := [⟨kWidevineSystemId, GetMockPsshData t, [GetMockKeyId t]⟩] }

/-- The common-system extraction of the mock response. -/
def MockCommonKeys : List ExtractedKey :=
  (ExtractEncryptionKeys true false MockLicenseResponse).getD []

/-! ### Helper lemmas: fetch exchanges never touch the cache fields -/

theorem DoFetch_src_floor (s : WidevineKeySource) (m : String) (c : Bool) :
    (DoFetch s m c).src.floor = s.floor := by
  unfold DoFetch
  cases h : BuildPostBody s.signer m <;> simp [h]

theorem floor_le_fetchCryptoPeriodWindow (s : WidevineKeySource) :
    s.floor ≤ (FetchCryptoPeriodWindow s).2.floor := by
  unfold FetchCryptoPeriodWindow
  cases h : (DoFetch s
      (CryptoPeriodRequest s.content_id s.policy s.next_index kDefaultCryptoPeriodCount)
      false).keys with
  | none => simp [h, DoFetch_src_floor]
  | some ks => simp [h]

theorem floor_le_fetchWindows (n : Nat) :
    ∀ s : WidevineKeySource, s.floor ≤ (FetchWindows n s).2.floor := by
  induction n with
  | zero => intro s; exact le_refl _
  | succ n ih =>
      intro s
      unfold FetchWindows
      by_cases h : (FetchCryptoPeriodWindow s).1.error_code = ErrorCode.OK
      · rw [if_pos h]
        exact le_trans (floor_le_fetchCryptoPeriodWindow s) (ih _)
      · rw [if_neg h]
        exact floor_le_fetchCryptoPeriodWindow s

theorem floor_le_getCryptoPeriodKey (s : WidevineKeySource) (i : Nat) (t : TrackType) :
    s.floor ≤ (GetCryptoPeriodKey s i t).2.1.floor := by
  unfold GetCryptoPeriodKey
  by_cases hf : s.fetched = false
  · rw [if_pos hf]
  · rw [if_neg hf]
    by_cases hfl : i < s.floor
    · rw [if_pos hfl]
    · rw [if_neg hfl]
      dsimp only
      have h0 : (if s.rotation_started = true then s
          else { s with next_index := i - 1 }).floor = s.floor := by
        by_cases hr : s.rotation_started = true
        · rw [if_pos hr]
        · rw [if_neg hr]
      generalize (if s.rotation_started = true then s
          else { s with next_index := i - 1 }) = s0 at h0 ⊢
      have h1 : s.floor ≤ (FetchWindows (windowsNeeded s0 i) s0).2.floor := by
        rw [← h0]; exact floor_le_fetchWindows _ _
      by_cases hok :
          (FetchWindows (windowsNeeded s0 i) s0).1.error_code = ErrorCode.OK
      · rw [if_pos hok]
        cases hfind : (FetchWindows (windowsNeeded s0 i) s0).2.rotation_keys.find?
            (fun e => e.1 == i && e.2.1 == t) with
        | some e => exact h1
        | none => exact h1
      · rw [if_neg hok]
        exact h1

theorem FetchKeysContentIdPolicy_floor (s : WidevineKeySource) (cid : Bytes) (p : String) :
    (FetchKeysContentIdPolicy s cid p).2.floor = s.floor := by
  unfold FetchKeysContentIdPolicy
  cases h : (DoFetch s (ContentIdRequest cid p) false).keys <;>
    simp [h, DoFetch_src_floor]

theorem FetchKeysPsshBox_floor (s : WidevineKeySource) (box : Bytes) :
    (FetchKeysPsshBox s box).2.floor = s.floor := by
  unfold FetchKeysPsshBox
  cases hp : ParsePsshBox box with
  | none => simp [hp]
  | some data =>
      cases h : (DoFetch s (PsshRequest data) false).keys <;>
        simp [hp, h, DoFetch_src_floor]

theorem FetchKeysKeyIds_floor (s : WidevineKeySource) (ids : List Bytes) :
    (FetchKeysKeyIds s ids).2.floor = s.floor := by
  unfold FetchKeysKeyIds
  by_cases he : ids.isEmpty = true
  · rw [if_pos he]
  · rw [if_neg he]
    cases h : (DoFetch s (PsshRequest (PsshDataFromKeyIds ids)) false).keys <;>
      simp [h, DoFetch_src_floor]

theorem FetchKeysClassic_floor (s : WidevineKeySource) (assetId : Nat) :
    (FetchKeysClassic s assetId).2.floor = s.floor := by
  unfold FetchKeysClassic
  cases h : (DoFetch s (AssetIdRequest assetId) true).keys <;>
    simp [h, DoFetch_src_floor]

theorem floor_le_applyOp (s : WidevineKeySource) (op : Op) :
    s.floor ≤ (applyOp s op).floor := by
  cases op with
  | fetchContentId cid p => exact le_of_eq (FetchKeysContentIdPolicy_floor s cid p).symm
  | fetchPsshBox b => exact le_of_eq (FetchKeysPsshBox_floor s b).symm
  | fetchKeyIds ids => exact le_of_eq (FetchKeysKeyIds_floor s ids).symm
  | fetchClassic a => exact le_of_eq (FetchKeysClassic_floor s a).symm
  | getKey t => exact le_refl _
  | getCryptoPeriodKey i t => exact floor_le_getCryptoPeriodKey s i t

/-! ### Helper lemmas about the retry loop -/

theorem fetchWithRetry_fatal_status (ac c : Bool) (body st : String)
    (tracks : List LicenseTrack) (rest : List FetchOutcome) (log : List String)
    (n : Nat) (hn : n ≠ 0) (h1 : st ≠ "OK") (h2 : IsTransientError st = false) :
    FetchWithRetry ac c body n (FetchOutcome.response ⟨st, tracks⟩ :: rest) log =
      ⟨⟨ErrorCode.SERVER_ERROR, "Error licensing"⟩, none, rest, log ++ [body]⟩ := by
  cases n with
  | zero => exact absurd rfl hn
  | succ m =>
      unfold FetchWithRetry
      dsimp only
      rw [if_neg h1, if_neg (by simp [h2])]

theorem fetchWithRetry_extraction_failure (ac c : Bool) (body : String)
    (r : LicenseResponse) (rest : List FetchOutcome) (log : List String)
    (n : Nat) (hn : n ≠ 0) (hok : r.status = "OK")
    (hx : ExtractEncryptionKeys ac c r = none) :
    FetchWithRetry ac c body n (FetchOutcome.response r :: rest) log =
      ⟨⟨ErrorCode.SERVER_ERROR, "Error licensing"⟩, none, rest, log ++ [body]⟩ := by
  cases n with
  | zero => exact absurd rfl hn
  | succ m =>
      unfold FetchWithRetry
      dsimp only
      rw [if_pos hok, hx]

/-! ### Claim theorems -/

set_option maxRecDepth 100000 in
/-- Claim C1: in rotation mode with window size 10, after the initial
non-rotation FetchKeys the lookup sequence 8, 17, 37, 38, 36, 39 (each for
SD, HD, AUDIO) triggers exactly 4 window fetches beyond the initial fetch,
every one succeeding, and each window request's `first_crypto_period_index`
is the nominal window start minus one: 7, 17, 27, 37. -/
theorem c1_rotation_window_fetches :
    RotationFinal.message_log =
      [ExpectedContentMessage, ExpectedCryptoPeriodMessage 7, ExpectedCryptoPeriodMessage 17,
       ExpectedCryptoPeriodMessage 27, ExpectedCryptoPeriodMessage 37] ∧
    RotationFinal.request_log.length = 5 ∧
    RotationRun.2.all (fun p => p.1 == Status.OK) = true := by decide

/-- Claim C2: the cache floor never decreases across any sequence of
operations; every lookup strictly below the floor fails with
INVALID_ARGUMENT (never NOT_FOUND); in particular once the floor has
advanced past 8, `GetCryptoPeriodKey 8 SD` fails with the distinct evicted
condition. -/
theorem c2_floor_invariant :
    (∀ (s : WidevineKeySource) (ops : List Op), s.floor ≤ (applyOps s ops).floor) ∧
    (∀ (s : WidevineKeySource) (i : Nat) (t : TrackType), i < s.floor →
      (GetCryptoPeriodKey s i t).1.error_code = ErrorCode.INVALID_ARGUMENT) ∧
    (∀ s : WidevineKeySource, s.fetched = true → 8 < s.floor →
      (GetCryptoPeriodKey s 8 TrackType.SD).1 =
        ⟨ErrorCode.INVALID_ARGUMENT, "Crypto period evicted"⟩) := by
  refine ⟨?_, ?_, ?_⟩
  · intro s ops
    induction ops generalizing s with
    | nil => exact le_refl _
    | cons op rest ih =>
        exact le_trans (floor_le_applyOp s op) (ih (applyOp s op))
  · intro s i t h
    unfold GetCryptoPeriodKey
    by_cases hf : s.fetched = false
    · rw [if_pos hf]
    · rw [if_neg hf, if_pos h]
  · intro s hf h8
    unfold GetCryptoPeriodKey
    rw [if_neg (by simp [hf]), if_pos h8]

set_option maxRecDepth 100000 in
/-- Witness for C2: the final state of the rotation scenario has floor 27,
and the evicted index 8 fails exactly as the invariant states. -/
theorem c2_floor_invariant_witness :
    RotationFinal.fetched = true ∧ 8 < RotationFinal.floor ∧
    (GetCryptoPeriodKey RotationFinal 8 TrackType.SD).1 =
      ⟨ErrorCode.INVALID_ARGUMENT, "Crypto period evicted"⟩ :=
  ⟨by decide, by decide,
    c2_floor_invariant.2.2 RotationFinal (by decide) (by decide)⟩

set_option maxRecDepth 100000 in
/-- Claim C5: a transport TIME_OUT followed by a successful response is
retried exactly once: FetchKeys succeeds, the fetcher saw exactly two
requests and consumed exactly the two scripted outcomes, and the keys are
those of the second response. -/
theorem c5_timeout_retry :
    TimeoutRun.1 = Status.OK ∧
    TimeoutRun.2.request_log.length = 2 ∧
    TimeoutRun.2.script = [] ∧
    (GetKey TimeoutRun.2 TrackType.SD).2 = some (ExpectedCencKeyNoCommon "SD") ∧
    (GetKey TimeoutRun.2 TrackType.HD).2 = some (ExpectedCencKeyNoCommon "HD") ∧
    (GetKey TimeoutRun.2 TrackType.AUDIO).2 = some (ExpectedCencKeyNoCommon "AUDIO") := by
  decide

set_option maxRecDepth 100000 in
/-- Claim C6: the serialized request bodies of the four acquisition modes
match the test's expected formats byte for byte at the test inputs: the
content-id mode message, the asset-id mode message with the high-bit-set
asset id 0x80038cd9 printed as the unsigned decimal 2147716313, the
pssh-box mode message after stripping the box framing, and the key-ids mode
message over the synthesized pssh payload. -/
theorem c6_request_formats :
    ContentIdRequest kContentId kPolicy = ExpectedContentMessage ∧
    AssetIdRequest kClassicAssetId = ExpectedAssetIdMessage ∧
    kClassicAssetId = 0x80038cd9 ∧ 2 ^ 31 ≤ kClassicAssetId ∧
    ParsePsshBox kRequestPsshBox = some (strBytes "PSSH data") ∧
    PsshRequest (strBytes "PSSH data") = ExpectedPsshBoxMessage ∧
    PsshDataFromKeyIds [kRequestKeyId] = [0x12, 0x06, 0x00, 0x01, 0x02, 0x03, 0x04, 0x05] ∧
    PsshRequest (PsshDataFromKeyIds [kRequestKeyId]) = ExpectedKeyIdsMessage := by
  decide

set_option maxRecDepth 100000 in
/-- Claim C7: with a configured Signer the fetcher observes exactly the
signed envelope over the exact request bytes that were signed (the
`HttpFetchFailure` expectation, byte for byte), and the transport status is
surfaced verbatim; with no Signer the raw request message is sent unsigned;
in general the post body is the signed envelope whenever signing succeeds. -/
theorem c7_signed_post_body :
    HttpFailRun.1 = ⟨ErrorCode.UNKNOWN, ""⟩ ∧
    HttpFailRun.2.request_log = [ExpectedSignedPostBody] ∧
    UnsignedFailRun.2.request_log = [ExpectedContentMessage] ∧
    (∀ (sg : Signer) (m sig : String), sg.generate m = some sig →
        BuildPostBody (some sg) m = some (SignedMessage m sig sg.name)) ∧
    (∀ m : String, BuildPostBody none m = some m) := by
  refine ⟨by decide, by decide, by decide, ?_, fun m => rfl⟩
  intro sg m sig h
  simp [BuildPostBody, h]

/-- Witness for C7: the mock signer's envelope over the expected content
message is exactly the signed message format. -/
theorem c7_signed_post_body_witness :
    BuildPostBody (some MockSigner) ExpectedContentMessage =
      some (SignedMessage ExpectedContentMessage kMockSignature kSignerName) :=
  c7_signed_post_body.2.2.2.1 MockSigner ExpectedContentMessage kMockSignature rfl

set_option maxRecDepth 100000 in
/-- Claim C9 counterexample: in the rotation scenario the successful
`FetchKeys(content_id, policy)` does NOT request or populate any rotation
window: the only fetch it performs is the non-rotation request, and the
rotation cache is empty afterwards. -/
theorem c9_no_window_on_fetchKeys :
    RotationAfterFetch.1 = Status.OK ∧
    RotationAfterFetch.2.message_log = [ExpectedContentMessage] ∧
    RotationAfterFetch.2.request_log.length = 1 ∧
    RotationAfterFetch.2.rotation_keys = [] ∧
    RotationAfterFetch.2.rotation_started = false := by decide

set_option maxRecDepth 100000 in
/-- Claim C9 (amended): a successful `FetchKeys(content_id, policy)`
performs only the immediate non-rotation population; the first rotation
window is requested and populated lazily by the first GetCryptoPeriodKey
call, which issues the window request with `first_crypto_period_index` 7. -/
theorem c9_lazy_first_window :
    RotationAfterFetch.1 = Status.OK ∧
    (GetKey RotationAfterFetch.2 TrackType.SD).1 = Status.OK ∧
    RotationAfterFetch.2.rotation_started = false ∧
    (GetCryptoPeriodKey RotationAfterFetch.2 8 TrackType.SD).1 = Status.OK ∧
    (GetCryptoPeriodKey RotationAfterFetch.2 8 TrackType.SD).2.1.message_log =
      [ExpectedContentMessage, ExpectedCryptoPeriodMessage 7] ∧
    (GetCryptoPeriodKey RotationAfterFetch.2 8 TrackType.SD).2.1.rotation_started = true := by
  decide

/-- Claim C3: in every acquisition mode, if the configured Signer's
GenerateSignature fails then FetchKeys returns INTERNAL_ERROR immediately
and the state is entirely unchanged — in particular the fetcher script and
request log are untouched (zero fetch attempts) and the cache is unchanged. -/
theorem c3_signing_failure :
    ∀ (s : WidevineKeySource) (sg : Signer) (cid : Bytes) (policy : String)
      (box data : Bytes) (ids : List Bytes) (assetId : Nat),
      s.signer = some sg →
      (sg.generate (ContentIdRequest cid policy) = none →
        FetchKeysContentIdPolicy s cid policy =
          (⟨ErrorCode.INTERNAL_ERROR, "Signature generation failed."⟩, s)) ∧
      (ParsePsshBox box = some data → sg.generate (PsshRequest data) = none →
        FetchKeysPsshBox s box =
          (⟨ErrorCode.INTERNAL_ERROR, "Signature generation failed."⟩, s)) ∧
      (ids.isEmpty = false → sg.generate (PsshRequest (PsshDataFromKeyIds ids)) = none →
        FetchKeysKeyIds s ids =
          (⟨ErrorCode.INTERNAL_ERROR, "Signature generation failed."⟩, s)) ∧
      (sg.generate (AssetIdRequest assetId) = none →
        FetchKeysClassic s assetId =
          (⟨ErrorCode.INTERNAL_ERROR, "Signature generation failed."⟩, s)) := by
  intro s sg cid policy box data ids assetId hs
  refine ⟨?_, ?_, ?_, ?_⟩
  · intro hg
    have hb : BuildPostBody s.signer (ContentIdRequest cid policy) = none := by
      rw [hs]; simp [BuildPostBody, hg]
    unfold FetchKeysContentIdPolicy DoFetch
    rw [hb]
  · intro hp hg
    have hb : BuildPostBody s.signer (PsshRequest data) = none := by
      rw [hs]; simp [BuildPostBody, hg]
    unfold FetchKeysPsshBox
    rw [hp]
    dsimp only
    unfold DoFetch
    rw [hb]
  · intro hi hg
    have hb : BuildPostBody s.signer (PsshRequest (PsshDataFromKeyIds ids)) = none := by
      rw [hs]; simp [BuildPostBody, hg]
    unfold FetchKeysKeyIds
    rw [if_neg (by simp [hi])]
    unfold DoFetch
    rw [hb]
  · intro hg
    have hb : BuildPostBody s.signer (AssetIdRequest assetId) = none := by
      rw [hs]; simp [BuildPostBody, hg]
    unfold FetchKeysClassic DoFetch
    rw [hb]

/-- A key source configured with the always-failing signer. -/
def FailState : WidevineKeySource :=
  InitKeySource false (some FailSigner) [FetchOutcome.response MockLicenseResponse]

/-- Witness for C3: with the failing signer, all four acquisition modes
surface INTERNAL_ERROR and leave the state untouched. -/
theorem c3_signing_failure_witness :
    FetchKeysContentIdPolicy FailState kContentId kPolicy =
      (⟨ErrorCode.INTERNAL_ERROR, "Signature generation failed."⟩, FailState) ∧
    FetchKeysPsshBox FailState kRequestPsshBox =
      (⟨ErrorCode.INTERNAL_ERROR, "Signature generation failed."⟩, FailState) ∧
    FetchKeysKeyIds FailState [kRequestKeyId] =
      (⟨ErrorCode.INTERNAL_ERROR, "Signature generation failed."⟩, FailState) ∧
    FetchKeysClassic FailState kClassicAssetId =
      (⟨ErrorCode.INTERNAL_ERROR, "Signature generation failed."⟩, FailState) := by
  have h := c3_signing_failure FailState FailSigner kContentId kPolicy kRequestPsshBox
    (strBytes "PSSH data") [kRequestKeyId] kClassicAssetId rfl
  exact ⟨h.1 rfl, h.2.1 (by decide) rfl, h.2.2.1 (by decide) rfl, h.2.2.2 rfl⟩

set_option maxRecDepth 100000 in
/-- Claim C4: a decoded transient status ("INTERNAL_ERROR") followed by an
OK response is retried and FetchKeys succeeds with the retried keys; a
decoded "UNKNOWN_ERROR" is not retried and fails with SERVER_ERROR; and in
general ANY decoded status outside "OK" and the transient set fails with
SERVER_ERROR after exactly one fetch, leaving the cache unchanged. -/
theorem c4_license_status_classification :
    (TransientRun.1 = Status.OK ∧ TransientRun.2.request_log.length = 2 ∧
      TransientRun.2.script = [] ∧
      (GetKey TransientRun.2 TrackType.SD).2 = some (ExpectedCencKeyNoCommon "SD") ∧
      (GetKey TransientRun.2 TrackType.HD).2 = some (ExpectedCencKeyNoCommon "HD") ∧
      (GetKey TransientRun.2 TrackType.AUDIO).2 = some (ExpectedCencKeyNoCommon "AUDIO")) ∧
    (UnknownErrorRun.1.error_code = ErrorCode.SERVER_ERROR ∧
      UnknownErrorRun.2.request_log.length = 1 ∧
      UnknownErrorRun.2.script = [FetchOutcome.response MockLicenseResponse]) ∧
    (∀ (s : WidevineKeySource) (cid : Bytes) (policy st : String)
        (tracks : List LicenseTrack) (rest : List FetchOutcome),
      s.signer = none → s.script = FetchOutcome.response ⟨st, tracks⟩ :: rest →
      st ≠ "OK" → IsTransientError st = false →
      (FetchKeysContentIdPolicy s cid policy).1.error_code = ErrorCode.SERVER_ERROR ∧
      (FetchKeysContentIdPolicy s cid policy).2.script = rest ∧
      (FetchKeysContentIdPolicy s cid policy).2.request_log =
        s.request_log ++ [ContentIdRequest cid policy] ∧
      (FetchKeysContentIdPolicy s cid policy).2.keys = s.keys ∧
      (FetchKeysContentIdPolicy s cid policy).2.fetched = s.fetched) := by
  refine ⟨by decide, by decide, ?_⟩
  intro s cid policy st tracks rest hsig hscript h1 h2
  have hb : BuildPostBody s.signer (ContentIdRequest cid policy) =
      some (ContentIdRequest cid policy) := by rw [hsig]; rfl
  unfold FetchKeysContentIdPolicy DoFetch
  rw [hb]
  dsimp only
  rw [hscript,
    fetchWithRetry_fatal_status s.add_common_pssh false (ContentIdRequest cid policy)
      st tracks rest s.request_log kNumTransientErrorRetries (by decide) h1 h2]
  exact ⟨rfl, rfl, rfl, rfl, rfl⟩

/-- Witness for C4: the general fatal-status clause applied to the
"UNKNOWN_ERROR" script of the test: the success response scripted after it
is never consumed. -/
theorem c4_license_status_classification_witness :
    (FetchKeysContentIdPolicy (InitKeySource false none UnknownErrorScript)
        kContentId kPolicy).2.script = [FetchOutcome.response MockLicenseResponse] :=
  (c4_license_status_classification.2.2 (InitKeySource false none UnknownErrorScript)
      kContentId kPolicy "UNKNOWN_ERROR" [] [FetchOutcome.response MockLicenseResponse]
      rfl rfl (by decide) (by decide)).2.1

/-- Claim C8: in common-system mode, for every successfully parsed response
all of whose tracks are recognized, each track's EncryptionKey carries
exactly its own Widevine entry (with only its own pssh data and key id)
followed by one synthesized aggregate entry whose key-id set equals the
union of the key ids of all tracks of the response, deduplicated and
order-independent. -/
theorem c8_common_system_aggregation :
    ∀ (r : LicenseResponse) (ks : List ExtractedKey),
      (∀ t ∈ r.tracks, GetTrackTypeFromString t.type ≠ TrackType.UNKNOWN) →
      ExtractEncryptionKeys true false r = some ks →
      ks.length = r.tracks.length ∧
      (∀ e ∈ ks, ∃ t ∈ r.tracks, ∃ agg : List String,
        e.encryption_key.key = t.key ∧
        e.encryption_key.key_id = t.key_id.getD "" ∧
        e.encryption_key.key_system_info =
          [⟨kWidevineSystemId, t.pssh_data.getD "", [t.key_id.getD ""]⟩,
           ⟨kCommonSystemId, "", agg⟩] ∧
        agg.Nodup ∧
        (∀ id, id ∈ agg ↔ ∃ t2 ∈ r.tracks, t2.key_id = some id)) ∧
      (∀ t ∈ r.tracks, ∃ e ∈ ks,
        e.encryption_key.key = t.key ∧
        e.encryption_key.key_system_info =
          [⟨kWidevineSystemId, t.pssh_data.getD "", [t.key_id.getD ""]⟩,
           ⟨kCommonSystemId, "", aggregateKeyIds r.tracks⟩]) := by
  intro r ks hrec hx
  have hu : usableTracks r = r.tracks := by
    unfold usableTracks
    apply List.filter_eq_self.mpr
    intro t ht
    exact decide_eq_true (hrec t ht)
  unfold ExtractEncryptionKeys at hx
  rw [hu] at hx
  simp only [Bool.false_eq_true, if_false] at hx
  cases hall : r.tracks.all cencTrackWellFormed with
  | false => rw [hall] at hx; simp at hx
  | true =>
      rw [hall] at hx
      simp only [if_true] at hx
      rw [Option.some.injEq] at hx
      refine ⟨?_, ?_, ?_⟩
      · rw [← hx, List.length_map]
      · intro e he
        rw [← hx] at he
        obtain ⟨t, ht, rfl⟩ := List.mem_map.1 he
        refine ⟨t, ht, aggregateKeyIds r.tracks, rfl, rfl, rfl,
          List.nodup_dedup _, ?_⟩
        intro id
        simp [aggregateKeyIds, List.mem_dedup, List.mem_filterMap]
      · intro t ht
        refine ⟨mkCencKey true (aggregateKeyIds r.tracks) t, ?_, rfl, rfl⟩
        rw [← hx]
        exact List.mem_map_of_mem _ ht

/-- Witness for C8: the common-system extraction of the mock response
succeeds with one key per track. -/
theorem c8_common_system_aggregation_witness :
    MockCommonKeys.length = MockLicenseResponse.tracks.length :=
  (c8_common_system_aggregation MockLicenseResponse MockCommonKeys (by decide) rfl).1

/-- Claim C10: in cenc mode (`FetchKeys(content_id, policy)`), an OK-status
response containing a recognized track in legacy/classic format (no key_id)
makes FetchKeys fail with SERVER_ERROR instead of populating keys. -/
theorem c10_classic_format_in_cenc_mode :
    ∀ (s : WidevineKeySource) (cid : Bytes) (policy : String) (r : LicenseResponse)
      (rest : List FetchOutcome) (t : LicenseTrack),
      s.signer = none → s.script = FetchOutcome.response r :: rest →
      r.status = "OK" → t ∈ r.tracks →
      GetTrackTypeFromString t.type ≠ TrackType.UNKNOWN → t.key_id = none →
      (FetchKeysContentIdPolicy s cid policy).1.error_code = ErrorCode.SERVER_ERROR ∧
      (FetchKeysContentIdPolicy s cid policy).2.keys = s.keys ∧
      (FetchKeysContentIdPolicy s cid policy).2.fetched = s.fetched := by
  intro s cid policy r rest t hsig hscript hok ht hrec hkid
  have huse : t ∈ usableTracks r := List.mem_filter.mpr ⟨ht, decide_eq_true hrec⟩
  have hwf : cencTrackWellFormed t = false := by
    unfold cencTrackWellFormed
    rw [hkid]
    rfl
  have hall : (usableTracks r).all cencTrackWellFormed = false := by
    cases h : (usableTracks r).all cencTrackWellFormed
    · rfl
    · exact absurd (List.all_eq_true.mp h t huse) (by rw [hwf]; decide)
  have hx : ExtractEncryptionKeys s.add_common_pssh false r = none := by
    simp [ExtractEncryptionKeys, hall]
  have hb : BuildPostBody s.signer (ContentIdRequest cid policy) =
      some (ContentIdRequest cid policy) := by rw [hsig]; rfl
  unfold FetchKeysContentIdPolicy DoFetch
  rw [hb]
  dsimp only
  rw [hscript,
    fetchWithRetry_extraction_failure s.add_common_pssh false (ContentIdRequest cid policy)
      r rest s.request_log kNumTransientErrorRetries (by decide) hok hx]
  exact ⟨rfl, rfl, rfl⟩

/-- Witness for C10: the `LicenseStatusCencNotOK` scenario — the classic
mock response received in cenc mode — fails with SERVER_ERROR and never
populates the cache. -/
theorem c10_classic_format_in_cenc_mode_witness :
    CencNotOKRun.1.error_code = ErrorCode.SERVER_ERROR ∧ CencNotOKRun.2.fetched = false := by
  have h := c10_classic_format_in_cenc_mode
    (InitKeySource false none [FetchOutcome.response MockClassicLicenseResponse])
    kContentId kPolicy MockClassicLicenseResponse [] (MockClassicTrack "SD")
    rfl rfl rfl (by decide) (by decide) rfl
  exact ⟨h.1, h.2.2.trans rfl⟩

end WidevineModel
